import Mathlib

/-!
Shallow embedding of `converter.py` (eRechnungConverter): a UBL-XML
e-invoice to three-page PDF summary converter.

Modelling conventions:
* XML documents are the inductive `Element` tree (tag, optional text,
  attributes, children), matching `xml.etree.ElementTree` nodes.
* `find(".//{*}X")` is modelled over the strict-descendant preorder list,
  matching ElementPath semantics (`{*}` wildcard namespace, first match in
  document order; `.//` never matches the context node itself).
* Python `None`-able strings are `Option String`; `s or dflt` is `pyOr`.
* Python exceptions are modelled with `Except String`; the only statement
  in the extractor that can raise is `elem.text.strip()` for the note.
* `datetime.strptime(s, "%Y-%m-%d")` acceptance is modelled exactly
  (4-digit year, 1-2 digit month 1-12 and day, proleptic-Gregorian
  calendar validity, year at least 1); `\\d` is modelled as ASCII digits.
* The PDF canvas is modelled as the list of pages, each page being the
  list of drawn text strings in drawing order; geometric x/y coordinates
  of individual `drawString` calls are abstracted away, but the vertical
  cursor `y` (always a whole number of millimetres in this program) is
  threaded exactly, since the page-break checks `y < 60*mm` / `y < 50*mm`
  depend on it.  Writing files and stdout prints are modelled as lists.
-/

/-- Python truthiness fallback `s or dflt` for an optional string:
`None` and `""` are falsy. -/
def pyOr (o : Option String) (dflt : String) : String :=
  match o with
  | none => dflt
  | some s => if s = "" then dflt else s

/-- Whitespace stripped by Python `str.strip()` (ASCII subset). -/
def isPySpace (c : Char) : Bool :=
  c == ' ' || c == '\t' || c == '\n' || c == '\r' || c == '\x0b' || c == '\x0c'

/-- Python `str.strip()` on a character list. -/
def pyStrip (cs : List Char) : List Char :=
  ((cs.dropWhile isPySpace).reverse.dropWhile isPySpace).reverse

/-- Split a character list at every occurrence of `sep`, keeping empty
chunks, like Python `str.split(sep)` for a one-character separator. -/
def splitOnChar (sep : Char) : List Char → List (List Char)
  | [] => [[]]
  | c :: rest =>
    if c = sep then [] :: splitOnChar sep rest
    else
      match splitOnChar sep rest with
      | [] => [[c]]
      | g :: gs => (c :: g) :: gs

/-- Decimal value of a digit-character list (as `int()` does on the
groups captured by the strptime regex). -/
def toNatDigits (cs : List Char) : Nat :=
  cs.foldl (fun acc c => 10 * acc + (c.toNat - 48)) 0

/-- Gregorian leap year, as `datetime` uses. -/
def isLeap (y : Nat) : Bool :=
  y % 4 == 0 && (y % 100 != 0 || y % 400 == 0)

/-- Days in a month of the proleptic Gregorian calendar. -/
def daysInMonth (y m : Nat) : Nat :=
  if m = 2 then (if isLeap y then 29 else 28)
  else if m = 4 ∨ m = 6 ∨ m = 9 ∨ m = 11 then 30
  else 31

/-- Acceptance of `datetime.datetime.strptime(s, "%Y-%m-%d")`:
exactly three dash-separated digit groups, the year of exactly 4 digits,
month and day of 1 or 2 digits with values in range, and the resulting
triple a valid `datetime` date (year at least 1).  Returns the parsed
(year, month, day). -/
def parseDate (s : String) : Option (Nat × Nat × Nat) :=
  match splitOnChar '-' s.data with
  | [ys, ms, ds] =>
    if ys.length = 4 ∧ ms ≠ [] ∧ ms.length ≤ 2 ∧ ds ≠ [] ∧ ds.length ≤ 2 ∧
        ys.all Char.isDigit ∧ ms.all Char.isDigit ∧ ds.all Char.isDigit then
      let y := toNatDigits ys
      let mo := toNatDigits ms
      let dd := toNatDigits ds
      if 1 ≤ mo ∧ mo ≤ 12 ∧ 1 ≤ dd ∧ dd ≤ 31 ∧ 1 ≤ y ∧ dd ≤ daysInMonth y mo
      then some (y, mo, dd)
      else none
    else none
  | _ => none

/-- `format_date` (converter.py lines 11-20): on strptime success emit
`f"{d.day}.{d.month}.{d.year}"`; on failure return `datum_str or ""`. -/
def format_date (datum_str : Option String) : String :=
  match datum_str with
  | none => ""
  | some s =>
    match parseDate s with
    | some (y, m, d) => s!"{d}.{m}.{y}"
    | none => s

/-- Zero-padding of `f"{m:02d}"` for a natural number. -/
def pad02 (n : Nat) : String :=
  if n < 10 then "0" ++ toString n else toString n

/-- `format_period_monthyear` (converter.py lines 22-31): parse only the
start date; emit `f"{d.month:02d}/{d.year}"`; on failure emit `""`.
The end date is accepted but unused. -/
def format_period_monthyear (start_str end_str : Option String) : String :=
  match start_str with
  | none => ""
  | some s =>
    match parseDate s with
    | some (y, m, _) => pad02 m ++ "/" ++ toString y
    | none => ""

/-- An `xml.etree.ElementTree` element: tag (possibly in Clark notation
`{ns}local`), optional text, attributes, children in document order. -/
inductive Element where
  | mk (tag : String) (text : Option String)
       (attrs : List (String × String)) (children : List Element)
deriving Inhabited

/-- Tag of an element. -/
def Element.tag : Element → String
  | .mk t _ _ _ => t

/-- Text of an element (`None` when absent, as after parsing `<X/>`). -/
def Element.text : Element → Option String
  | .mk _ tx _ _ => tx

/-- Attributes of an element. -/
def Element.attrs : Element → List (String × String)
  | .mk _ _ a _ => a

/-- Children of an element. -/
def Element.children : Element → List Element
  | .mk _ _ _ cs => cs

/-- `elem.get(key)`: attribute lookup. -/
def Element.getAttr (e : Element) (key : String) : Option String :=
  (e.attrs.find? (fun p => p.1 == key)).map Prod.snd

mutual

/-- `elem.iter()`: the element followed by all descendants, preorder. -/
def preorder : Element → List Element
  | .mk t tx a cs => .mk t tx a cs :: preorderList cs

/-- Preorder concatenation over a sibling list. -/
def preorderList : List Element → List Element
  | [] => []
  | c :: cs => preorder c ++ preorderList cs

end

/-- Strict descendants of an element in document order (what the
ElementPath step `.//` ranges over). -/
def descendants (e : Element) : List Element :=
  preorderList e.children

/-- ElementPath `{*}name` wildcard-namespace tag match (CPython matches
the plain tag or any `{ns}name` Clark tag, i.e. the tag equals the name
or ends with the name preceded by a closing brace). -/
def tagMatches (name : String) (t : String) : Bool :=
  t == name || ("\x7d" ++ name).data.isSuffixOf t.data

/-- `e.find(".//{*}name")`: first matching strict descendant. -/
def findLocal (e : Element) (name : String) : Option Element :=
  (descendants e).find? (fun x => tagMatches name x.tag)

/-- `e.findall(".//{*}name")`: all matching strict descendants. -/
def findAllLocal (e : Element) (name : String) : List Element :=
  (descendants e).filter (fun x => tagMatches name x.tag)

/-- `e.find(".//{*}n1//{*}n2")`: first `n2`-descendant of an
`n1`-descendant, candidates enumerated in ElementPath pipeline order. -/
def findLocal2 (e : Element) (n1 n2 : String) : Option Element :=
  ((findAllLocal e n1).flatMap (fun a => findAllLocal a n2)).head?

/-- Text of an optionally-found element (absent element and present
element with `None` text both leave the field `None`). -/
def textOf (o : Option Element) : Option String :=
  o.bind Element.text

/-- `data["invoice_period"]` sub-record (`stop` models the source key
named after the period end). -/
structure InvoicePeriod where
  start : Option String
  stop : Option String
deriving Repr, DecidableEq, Inhabited

/-- `data["supplier"]` sub-record. -/
structure Supplier where
  endpoint_id : Option String
  name : Option String
  street : Option String
  city : Option String
  postal_zone : Option String
  country : Option String
  company_id : Option String
  registration_name : Option String
  contact_name : Option String
  contact_telephone : Option String
  contact_email : Option String
deriving Repr, DecidableEq, Inhabited

/-- `data["customer"]` sub-record. -/
structure Customer where
  endpoint_id : Option String
  name : Option String
  street : Option String
  city : Option String
  postal_zone : Option String
  country : Option String
  registration_name : Option String
deriving Repr, DecidableEq, Inhabited

/-- `data["payment_means"]` sub-record. -/
structure PaymentMeans where
  payment_means_code : Option String
  payment_id : Option String
  account_id : Option String
  account_name : Option String
  bic : Option String
deriving Repr, DecidableEq, Inhabited

/-- A tax-category sub-record (used at invoice and line level). -/
structure TaxCategory where
  id : Option String
  percent : Option String
  scheme_id : Option String
deriving Repr, DecidableEq, Inhabited

/-- `data["tax_total"]["tax_subtotal"]` sub-record. -/
structure TaxSubtotal where
  taxable_amount : Option String
  tax_amount : Option String
  tax_category : TaxCategory
deriving Repr, DecidableEq, Inhabited

/-- `data["tax_total"]` sub-record. -/
structure TaxTotal where
  tax_amount : Option String
  tax_subtotal : TaxSubtotal
deriving Repr, DecidableEq, Inhabited

/-- `data["monetary_total"]` sub-record. -/
structure MonetaryTotal where
  line_extension_amount : Option String
  tax_exclusive_amount : Option String
  tax_inclusive_amount : Option String
  allowance_total_amount : Option String
  charge_total_amount : Option String
  payable_amount : Option String
deriving Repr, DecidableEq, Inhabited

/-- One entry of `data["items"]`. -/
structure Item where
  id : Option String
  quantity : Option String
  quantity_unit : Option String
  line_extension_amount : Option String
  item_name : Option String
  tax_category : TaxCategory
  price_amount : Option String
  price_currency : Option String
  base_quantity : Option String
  base_quantity_unit : Option String
deriving Repr, DecidableEq, Inhabited

/-- One entry of `data["additional_documents"]` (fields are optional
strings because `doc_id.text` can itself be `None`). -/
structure AdditionalDoc where
  id : Option String
  description : Option String
deriving Repr, DecidableEq, Inhabited

/-- The invoice model dictionary built by `parse_invoice_data`. -/
structure InvoiceData where
  invoice_id : Option String
  issue_date : Option String
  due_date : Option String
  invoice_type_code : Option String
  note : Option String
  currency : Option String
  buyer_reference : Option String
  invoice_period : InvoicePeriod
  supplier : Supplier
  customer : Customer
  payment_means : PaymentMeans
  tax_total : TaxTotal
  monetary_total : MonetaryTotal
  items : List Item
  additional_documents : List AdditionalDoc
  profile_id : Option String
  customization_id : Option String
deriving Repr, DecidableEq, Inhabited

/-- The initial dictionary of `parse_invoice_data` (converter.py lines
109-172): every scalar `None`, both sequences empty. -/
def emptyInvoiceData : InvoiceData where
  invoice_id := none
  issue_date := none
  due_date := none
  invoice_type_code := none
  note := none
  currency := none
  buyer_reference := none
  invoice_period := { start := none, stop := none }
  supplier := { endpoint_id := none, name := none, street := none,
                city := none, postal_zone := none, country := none,
                company_id := none, registration_name := none,
                contact_name := none, contact_telephone := none,
                contact_email := none }
  customer := { endpoint_id := none, name := none, street := none,
                city := none, postal_zone := none, country := none,
                registration_name := none }
  payment_means := { payment_means_code := none, payment_id := none,
                     account_id := none, account_name := none, bic := none }
  tax_total := { tax_amount := none,
                 tax_subtotal := { taxable_amount := none, tax_amount := none,
                                   tax_category := { id := none, percent := none,
                                                     scheme_id := none } } }
  monetary_total := { line_extension_amount := none, tax_exclusive_amount := none,
                      tax_inclusive_amount := none, allowance_total_amount := none,
                      charge_total_amount := none, payable_amount := none }
  items := []
  additional_documents := []
  profile_id := none
  customization_id := none

/-- Guarded nested lookup: `X.find(".//{*}name").text` when the optional
container `X` was found, `None` otherwise (the ubiquitous
`if x is not None: e = x.find(...)` pattern of the source). -/
def textIn (o : Option Element) (name : String) : Option String :=
  textOf (o.bind (fun a => findLocal a name))

/-- Like `textIn` with a two-step `.//{*}n1//{*}n2` path. -/
def textIn2 (o : Option Element) (n1 n2 : String) : Option String :=
  textOf (o.bind (fun a => findLocal2 a n1 n2))

/-- Loop over `AdditionalDocumentReference` elements (converter.py lines
218-225): an entry is appended only when an `ID` or `DocumentDescription`
descendant exists; a missing one of the two is stored as `""`. -/
def parseDocRefs : List Element → List AdditionalDoc
  | [] => []
  | docref :: rest =>
    let doc_id := findLocal docref "ID"
    let desc := findLocal docref "DocumentDescription"
    if doc_id.isSome || desc.isSome then
      { id := (match doc_id with
               | some e => e.text
               | none => some "")
        description := (match desc with
                        | some e => e.text
                        | none => some "") } :: parseDocRefs rest
    else parseDocRefs rest

/-- Body of the `InvoiceLine` loop (converter.py lines 365-419): every
lookup is `line.find(...)`, i.e. scoped to this line's subtree. -/
def parseInvoiceLine (line : Element) : Item :=
  let qe := findLocal line "InvoicedQuantity"
  let root_item := findLocal line "Item"
  let cat := root_item.bind (fun ri => findLocal ri "ClassifiedTaxCategory")
  let pr := findLocal line "Price"
  let pe := pr.bind (fun p => findLocal p "PriceAmount")
  let bq := pr.bind (fun p => findLocal p "BaseQuantity")
  { id := textOf (findLocal line "ID")
    quantity := textOf qe
    quantity_unit := qe.bind (fun e => e.getAttr "unitCode")
    line_extension_amount := textOf (findLocal line "LineExtensionAmount")
    item_name := textIn root_item "Name"
    tax_category := { id := textIn cat "ID"
                      percent := textIn cat "Percent"
                      scheme_id := textIn2 cat "TaxScheme" "ID" }
    price_amount := textOf pe
    price_currency := pe.bind (fun e => e.getAttr "currencyID")
    base_quantity := textOf bq
    base_quantity_unit := bq.bind (fun e => e.getAttr "unitCode") }

/-- Supplier block (converter.py lines 227-266), guarded on the
`AccountingSupplierParty//Party` element. -/
def parseSupplier (root : Element) : Supplier :=
  match findLocal2 root "AccountingSupplierParty" "Party" with
  | none => emptyInvoiceData.supplier
  | some sup =>
    let addr := findLocal sup "PostalAddress"
    let contact := findLocal sup "Contact"
    { endpoint_id := textOf (findLocal sup "EndpointID")
      name := textOf (findLocal2 sup "PartyName" "Name")
      street := textIn addr "StreetName"
      city := textIn addr "CityName"
      postal_zone := textIn addr "PostalZone"
      country := textIn2 addr "Country" "IdentificationCode"
      company_id := textOf (findLocal2 sup "PartyTaxScheme" "CompanyID")
      registration_name := textOf (findLocal2 sup "PartyLegalEntity" "RegistrationName")
      contact_name := textIn contact "Name"
      contact_telephone := textIn contact "Telephone"
      contact_email := textIn contact "ElectronicMail" }

/-- Customer block (converter.py lines 268-293). -/
def parseCustomer (root : Element) : Customer :=
  match findLocal2 root "AccountingCustomerParty" "Party" with
  | none => emptyInvoiceData.customer
  | some cust =>
    let addr := findLocal cust "PostalAddress"
    { endpoint_id := textOf (findLocal cust "EndpointID")
      name := textOf (findLocal2 cust "PartyName" "Name")
      street := textIn addr "StreetName"
      city := textIn addr "CityName"
      postal_zone := textIn addr "PostalZone"
      country := textIn2 addr "Country" "IdentificationCode"
      registration_name := textOf (findLocal2 cust "PartyLegalEntity" "RegistrationName") }

/-- PaymentMeans block (converter.py lines 295-314). -/
def parsePaymentMeans (root : Element) : PaymentMeans :=
  match findLocal root "PaymentMeans" with
  | none => emptyInvoiceData.payment_means
  | some pay =>
    let acc := findLocal pay "PayeeFinancialAccount"
    { payment_means_code := textOf (findLocal pay "PaymentMeansCode")
      payment_id := textOf (findLocal pay "PaymentID")
      account_id := textIn acc "ID"
      account_name := textIn acc "Name"
      bic := textIn2 acc "FinancialInstitutionBranch" "ID" }

/-- TaxTotal block (converter.py lines 316-340). -/
def parseTaxTotal (root : Element) : TaxTotal :=
  match findLocal root "TaxTotal" with
  | none => emptyInvoiceData.tax_total
  | some tax =>
    let subt := findLocal tax "TaxSubtotal"
    let cat := subt.bind (fun s => findLocal s "TaxCategory")
    { tax_amount := textOf (findLocal tax "TaxAmount")
      tax_subtotal := { taxable_amount := textIn subt "TaxableAmount"
                        tax_amount := textIn subt "TaxAmount"
                        tax_category := { id := textIn cat "ID"
                                          percent := textIn cat "Percent"
                                          scheme_id := textIn2 cat "TaxScheme" "ID" } } }

/-- LegalMonetaryTotal block (converter.py lines 342-362). -/
def parseMonetaryTotal (root : Element) : MonetaryTotal :=
  match findLocal root "LegalMonetaryTotal" with
  | none => emptyInvoiceData.monetary_total
  | some mt =>
    { line_extension_amount := textOf (findLocal mt "LineExtensionAmount")
      tax_exclusive_amount := textOf (findLocal mt "TaxExclusiveAmount")
      tax_inclusive_amount := textOf (findLocal mt "TaxInclusiveAmount")
      allowance_total_amount := textOf (findLocal mt "AllowanceTotalAmount")
      charge_total_amount := textOf (findLocal mt "ChargeTotalAmount")
      payable_amount := textOf (findLocal mt "PayableAmount") }

/-- `parse_invoice_data` (converter.py lines 98-421).  The only
statement able to raise is `data["note"] = elem.text.strip()` (line
193), when a `Note` element exists but its text is `None`; this is the
`Except.error` branch.  Everything else tolerates absence. -/
def parse_invoice_data (root : Element) : Except String InvoiceData :=
  match findLocal root "Note" with
  | some e =>
    match e.text with
    | none => Except.error "AttributeError: NoneType object has no attribute strip"
    | some t => Except.ok
      { invoice_id := textOf (findLocal root "ID")
        issue_date := textOf (findLocal root "IssueDate")
        due_date := textOf (findLocal root "DueDate")
        invoice_type_code := textOf (findLocal root "InvoiceTypeCode")
        note := some (String.mk (pyStrip t.data))
        currency := textOf (findLocal root "DocumentCurrencyCode")
        buyer_reference := textOf (findLocal root "BuyerReference")
        invoice_period := { start := textOf (findLocal2 root "InvoicePeriod" "StartDate")
                            stop := textOf (findLocal2 root "InvoicePeriod" "EndDate") }
        supplier := parseSupplier root
        customer := parseCustomer root
        payment_means := parsePaymentMeans root
        tax_total := parseTaxTotal root
        monetary_total := parseMonetaryTotal root
        items := (findAllLocal root "InvoiceLine").map parseInvoiceLine
        additional_documents := parseDocRefs (findAllLocal root "AdditionalDocumentReference")
        profile_id := textOf (findLocal root "ProfileID")
        customization_id := textOf (findLocal root "CustomizationID") }
  | none => Except.ok
      { invoice_id := textOf (findLocal root "ID")
        issue_date := textOf (findLocal root "IssueDate")
        due_date := textOf (findLocal root "DueDate")
        invoice_type_code := textOf (findLocal root "InvoiceTypeCode")
        note := none
        currency := textOf (findLocal root "DocumentCurrencyCode")
        buyer_reference := textOf (findLocal root "BuyerReference")
        invoice_period := { start := textOf (findLocal2 root "InvoicePeriod" "StartDate")
                            stop := textOf (findLocal2 root "InvoicePeriod" "EndDate") }
        supplier := parseSupplier root
        customer := parseCustomer root
        payment_means := parsePaymentMeans root
        tax_total := parseTaxTotal root
        monetary_total := parseMonetaryTotal root
        items := (findAllLocal root "InvoiceLine").map parseInvoiceLine
        additional_documents := parseDocRefs (findAllLocal root "AdditionalDocumentReference")
        profile_id := textOf (findLocal root "ProfileID")
        customization_id := textOf (findLocal root "CustomizationID") }

/-- `os.path.join(dir, fn)` for a relative `fn` on a POSIX system. -/
def pathJoin (dir fn : String) : String :=
  if dir = "" then fn
  else if dir.endsWith "/" then dir ++ fn
  else dir ++ "/" ++ fn

/-- Diagnostic printed on a base64 decode failure (converter.py line 86;
the exception text is elided from the model). -/
def fehlerMsg (idx : Nat) : String :=
  "Fehler beim Dekodieren von Anhang #" ++ toString idx

/-- Success message printed per saved attachment (converter.py line 92). -/
def savedMsg (idx : Nat) (outp : String) : String :=
  "Anhang #" ++ toString idx ++ " gespeichert als: " ++ outp

/-- Result of `extract_attachments`: the files written (path and bytes),
the messages printed, and the returned list of paths. -/
structure AttachResult where
  files : List (String × List Nat)
  logs : List String
  saved : List String
deriving Repr, DecidableEq, Inhabited

/-- The attachment loop (converter.py lines 79-93).  `b64` is the
library function `base64.b64decode`, abstracted as a partial decoder
(`none` models `binascii.Error`).  The enumeration index is assigned
before the empty-text check, so skipped elements consume a number. -/
def attachLoop (b64 : String → Option (List Nat)) (output_dir base_name : String) :
    List Element → Nat → AttachResult
  | [], _ => { files := [], logs := [], saved := [] }
  | elem :: rest, idx =>
    match elem.text with
    | none => attachLoop b64 output_dir base_name rest (idx + 1)
    | some enc =>
      if enc = "" then attachLoop b64 output_dir base_name rest (idx + 1)
      else
        match b64 enc with
        | none =>
          let r := attachLoop b64 output_dir base_name rest (idx + 1)
          { files := r.files, logs := fehlerMsg idx :: r.logs, saved := r.saved }
        | some pdf_bytes =>
          let fn := base_name ++ "_Anhang" ++ toString idx ++ ".pdf"
          let outp := pathJoin output_dir fn
          let r := attachLoop b64 output_dir base_name rest (idx + 1)
          { files := (outp, pdf_bytes) :: r.files
            logs := savedMsg idx outp :: r.logs
            saved := outp :: r.saved }

/-- `extract_attachments` (converter.py lines 71-96): iterate the whole
tree (`xml_root.iter()`), keep elements whose tag ends with
`EmbeddedDocumentBinaryObject`, run the numbered save loop, and report
when nothing was saved. -/
def extract_attachments (b64 : String → Option (List Nat)) (xml_root : Element)
    (output_dir base_name : String) : AttachResult :=
  let elems := (preorder xml_root).filter
    (fun e => e.tag.endsWith "EmbeddedDocumentBinaryObject")
  let r := attachLoop b64 output_dir base_name elems 1
  if r.saved = [] then
    { files := r.files, logs := r.logs ++ ["Kein PDF-Anhang gefunden."], saved := r.saved }
  else r

/-- `os.path.basename` on POSIX: the part after the last slash. -/
def pyBasename (p : String) : String :=
  (p.splitOn "/").getLastD ""

/-- Stem of `os.path.splitext`: cut at the last dot unless every
character before it is a dot (leading dots do not start an extension). -/
def pySplitextStem (b : String) : String :=
  let cs := b.data
  match cs.reverse.findIdx? (fun c => c = '.') with
  | none => b
  | some k =>
    let i := cs.length - 1 - k
    if (cs.take i).any (fun c => c ≠ '.') then String.mk (cs.take i) else b

/-- The fixed disclaimer drawn by `draw_footer` (converter.py lines 60-69). -/
def footer_text : String :=
  "* Wichtig: Dieses Dokument ist eine automatisch generierte Zusammenfassung " ++
  "der E-Rechnung, es ersetzt nicht die Originaldatei!"

/-- Python `p + "%" if p else ""` used for tax-percent display. -/
def pctOr (o : Option String) : String :=
  match o with
  | none => ""
  | some p => if p = "" then "" else p ++ "%"

/-- The three text lines of `draw_header` (converter.py lines 33-58), in
drawing order; the third is the `Seite X / Y` label. -/
def draw_header_ops (supplier_name invoice_id issue_date : Option String)
    (page_num total_pages : Nat) : List String :=
  let sn := pyOr supplier_name ""
  let iid := pyOr invoice_id ""
  let dat := format_date issue_date
  [s!"E-Rechnung | {sn}",
   s!"Rechnungsnummer: {iid} | Datum: {dat}",
   s!"Seite {page_num} / {total_pages}"]

/-- One bounded step of the 80-character wrap loop; `fuel` only bounds
the iteration count (each pass removes 80 characters, so `cs.length`
passes always suffice). -/
def chunk80Go : Nat → List Char → List (List Char)
  | 0, cs => [cs]
  | fuel + 1, cs =>
    if cs.length ≤ 80 then [cs]
    else cs.take 80 :: chunk80Go fuel (cs.drop 80)

/-- Fixed-width wrap of the note loop (converter.py lines 646-651):
80-character slices while the text is longer than 80, then the rest. -/
def chunk80 (cs : List Char) : List (List Char) :=
  chunk80Go cs.length cs

/-- The note lines drawn on page 2 (converter.py lines 639-652): split
the note on the literal pipe, strip each paragraph, skip empty ones, and
wrap the rest at 80 characters. -/
def renderNoteLines (note : List Char) : List (List Char) :=
  (splitOnChar '|' note).flatMap (fun ln =>
    let t := pyStrip ln
    if t = [] then [] else chunk80 t)

/-- The twelve text lines of one line-item block (converter.py lines
678-714), for 1-based position `idx`. -/
def itemOps (itm : Item) (idx : Nat) : List String :=
  let q := pyOr itm.quantity ""
  let qu := pyOr itm.quantity_unit ""
  let pa := pyOr itm.price_amount ""
  let lea := pyOr itm.line_extension_amount ""
  let bq := pyOr itm.base_quantity ""
  let bqu := pyOr itm.base_quantity_unit ""
  let tcid := pyOr itm.tax_category.id ""
  let tcpct := pctOr itm.tax_category.percent
  let itname := pyOr itm.item_name ""
  [s!"Position: {idx}",
   "Preiseinzelheiten",
   s!"Menge                      {q}",
   s!"Einheit                     {qu}",
   s!"Preis pro Einheit (netto)  {pa}",
   s!"Gesamtpreis (netto)       {lea}",
   s!"Basismenge zum Artikelpreis: {bq}",
   s!"Code der Maßeinheit: {bqu}",
   s!"Umsatzsteuer: {tcid}",
   s!"Umsatzsteuersatz: {tcpct}",
   "Artikelinformationen",
   s!"Bezeichnung: {itname}"]

/-- The five text lines of one additional-document block (converter.py
lines 801-815), for 1-based position `idx`; `doc["id"] or idx` falls
back to the sequence number. -/
def docOpsFor (base_fn : String) (doc : AdditionalDoc) (idx : Nat) : List String :=
  let kennung := (match doc.id with
                  | none => toString idx
                  | some s => if s = "" then toString idx else s)
  let beschreibung := pyOr doc.description ""
  let fn := base_fn ++ "_Anhang" ++ toString idx ++ ".pdf"
  [s!"Kennung: {kennung}",
   s!"Beschreibung: {beschreibung}",
   s!"Anhangsdokument: {fn}",
   "Format des Anhangdokuments: application/pdf",
   s!"Name des Anhangdokuments: {fn}"]

/-- The line-item loop (converter.py lines 677-730).  Each block lowers
the cursor by 74 mm; if it then sits below 60 mm the current physical
page is closed (footer drawn) and a new one opened with the same
`page_num=2` header and the cursor reset to `height - 30mm` (267 mm).
Returns (finished pages, current page ops, cursor). -/
def renderItems (hdr : List String) :
    List Item → Nat → Int → List String → List (List String) →
    List (List String) × List String × Int
  | [], _, y, cur, pages => (pages, cur, y)
  | itm :: rest, idx, y, cur, pages =>
    let cur2 := cur ++ itemOps itm idx
    let y2 := y - 74
    if y2 < 60 then
      renderItems hdr rest (idx + 1) 267 hdr (pages ++ [cur2 ++ [footer_text]])
    else
      renderItems hdr rest (idx + 1) y2 cur2 pages

/-- The additional-document loop (converter.py lines 798-828).  Each
block lowers the cursor by 30 mm; below 50 mm the page is closed and a
new one opened with the same `page_num=3` header. -/
def renderDocs (hdr : List String) (base_fn : String) :
    List AdditionalDoc → Nat → Int → List String → List (List String) →
    List (List String) × List String × Int
  | [], _, y, cur, pages => (pages, cur, y)
  | doc :: rest, idx, y, cur, pages =>
    let cur2 := cur ++ docOpsFor base_fn doc idx
    let y2 := y - 30
    if y2 < 50 then
      renderDocs hdr base_fn rest (idx + 1) 267 hdr (pages ++ [cur2 ++ [footer_text]])
    else
      renderDocs hdr base_fn rest (idx + 1) y2 cur2 pages

/-- Body of page 1 (converter.py lines 441-582), between header and
footer.  Page 1 performs no page-break checks. -/
def page1Ops (d : InvoiceData) : List String :=
  let buyref := pyOr d.buyer_reference "–"
  let kn := pyOr d.customer.registration_name (pyOr d.customer.name "")
  let cstreet := pyOr d.customer.street ""
  let cpz := pyOr d.customer.postal_zone ""
  let ccity := pyOr d.customer.city ""
  let ccountry := pyOr d.customer.country ""
  let supn := pyOr d.supplier.name ""
  let sstreet := pyOr d.supplier.street ""
  let spz := pyOr d.supplier.postal_zone ""
  let scity := pyOr d.supplier.city ""
  let scountry := pyOr d.supplier.country ""
  let cname := pyOr d.supplier.contact_name ""
  let ctel := pyOr d.supplier.contact_telephone ""
  let cmail := pyOr d.supplier.contact_email ""
  let iid := pyOr d.invoice_id ""
  let idate := format_date d.issue_date
  let itype := pyOr d.invoice_type_code ""
  let curr := pyOr d.currency ""
  let von := format_date d.invoice_period.start
  let bis := format_date d.invoice_period.stop
  let lea := pyOr d.monetary_total.line_extension_amount "0.00"
  let allw := pyOr d.monetary_total.allowance_total_amount "0.00"
  let chrg := pyOr d.monetary_total.charge_total_amount "0.00"
  let texcl := pyOr d.monetary_total.tax_exclusive_amount "0.00"
  let tamt := pyOr d.tax_total.tax_amount "0.00"
  let tincl := pyOr d.monetary_total.tax_inclusive_amount "0.00"
  let payable := pyOr d.monetary_total.payable_amount "0.00"
  let catid := pyOr d.tax_total.tax_subtotal.tax_category.id ""
  let taxable := pyOr d.tax_total.tax_subtotal.taxable_amount ""
  let catpct := pctOr d.tax_total.tax_subtotal.tax_category.percent
  let taxamt := pyOr d.tax_total.tax_subtotal.tax_amount ""
  ["Übersicht",
   "Informationen zum Käufer",
   s!"Käuferreferenz: {buyref}",
   s!"Name: {kn}",
   s!"Adresszeile 1: {cstreet}",
   s!"PLZ: {cpz}",
   s!"Ort: {ccity}",
   s!"Ländercode: {ccountry}",
   "Informationen zum Verkäufer",
   s!"Firmenname: {supn}",
   s!"Adresszeile 1: {sstreet}",
   s!"PLZ: {spz}",
   s!"Ort: {scity}",
   s!"Ländercode: {scountry}",
   s!"Name: {cname}",
   s!"Telefon: {ctel}",
   s!"E-Mail-Adresse: {cmail}",
   "Rechnungsdaten",
   s!"Rechnungsnummer: {iid}",
   s!"Rechnungsdatum: {idate}",
   s!"Rechnungsart: {itype}",
   s!"Währung: {curr}",
   "Abrechnungszeitraum",
   s!"Von: {von}  Bis: {bis}",
   "Gesamtbeträge der Rechnung",
   s!"Summe aller Positionen                    {lea}",
   s!"Summe Nachlässe                       {allw}",
   s!"Summe Zuschläge                        {chrg}",
   s!"Gesamtsumme                     {texcl}",
   s!"Summe Umsatzsteuer           {tamt}",
   s!"Gesamtsumme                     {tincl}",
   "Summe Fremdforderungen          0.00",
   s!"Fälliger Betrag               {payable}",
   "Aufschlüsselung der Umsatzsteuer auf Ebene der Rechnung",
   s!"Umsatzsteuerkategorie: {catid}",
   s!"Gesamtsumme                  {taxable}",
   s!"Umsatzsteuersatz          {catpct}",
   s!"Umsatzsteuerbetrag         {taxamt}",
   "Zahlungsdaten"]

/-- Fixed part of page 2 before the note lines (converter.py lines
598-635); the associated cursor decrements sum to 68 mm. -/
def page2FixedOps (d : InvoiceData) : List String :=
  let due := format_date d.due_date
  let pmcode := pyOr d.payment_means.payment_means_code ""
  let iid := pyOr d.invoice_id ""
  let accname := pyOr d.payment_means.account_name ""
  let iban := pyOr d.payment_means.account_id ""
  let bic := pyOr d.payment_means.bic ""
  [s!"Fälligkeitsdatum: {due}",
   "Code für das Zahlungsmittel:",
   pmcode,
   "Verwendungszweck:",
   iid,
   "Überweisung",
   s!"Kontoinhaber: {accname}",
   s!"IBAN: {iban}",
   s!"BIC: {bic}",
   "Bemerkungen zur Rechnung"]

/-- Seller/buyer supplementary blocks after the items (converter.py
lines 732-760). -/
def page2TrailerOps (d : InvoiceData) : List String :=
  let sreg := pyOr d.supplier.registration_name ""
  let smail := pyOr d.supplier.contact_email ""
  let scompany := pyOr d.supplier.company_id ""
  let creg := pyOr d.customer.registration_name ""
  ["Informationen zum Verkäufer",
   s!"Abweichender Handelsname: {sreg}",
   s!"Elektronische Adresse: {smail}",
   "Schema der elektronischen Adresse:",
   s!"Umsatzsteuer-ID: {scompany}",
   "Informationen zum Käufer",
   s!"Abweichender Handelsname: {creg}",
   "Elektronische Adresse: "]

/-- Fixed part of page 3 before the document loop (converter.py lines
776-797); the cursor afterwards is 267-8-6-5-10-6-6 = 226 mm. -/
def page3FixedOps (d : InvoiceData) : List String :=
  let prof := pyOr d.profile_id ""
  let custz := pyOr d.customization_id ""
  ["Schema der elektronischen Adresse:",
   "Informationen zum Vertrag",
   s!"Spezifikationskennung: {prof}",
   s!"Prozesskennung: {custz}",
   "Anlagen",
   "Rechnungsbegründende Unterlagen"]

/-- The `Leistungszeitraum` line of page 2 (converter.py lines 654-663):
drawn only when `format_period_monthyear` produced something. -/
def periodOps (d : InvoiceData) : List String :=
  let period := format_period_monthyear d.invoice_period.start d.invoice_period.stop
  if period = "" then [] else [s!"Leistungszeitraum: {period}"]

/-- Physical page 1: header, body, footer (no break checks occur). -/
def page1Full (d : InvoiceData) : List String :=
  draw_header_ops d.supplier.name d.invoice_id d.issue_date 1 3 ++
    page1Ops d ++ [footer_text]

/-- Page 2 content drawn before the line-item loop: header, fixed part,
note lines, optional period line, the `Details` heading. -/
def cur2Init (d : InvoiceData) : List String :=
  draw_header_ops d.supplier.name d.invoice_id d.issue_date 2 3 ++
    page2FixedOps d ++
    (renderNoteLines (pyOr d.note "").data).map (fun l => String.mk l) ++
    periodOps d ++ ["Details"]

/-- Page 3 content drawn before the document loop. -/
def cur3Init (d : InvoiceData) : List String :=
  draw_header_ops d.supplier.name d.invoice_id d.issue_date 3 3 ++ page3FixedOps d

/-- Cursor value at the start of the line-item loop on page 2: 267
(= height - 30mm) minus the page-2 fixed decrements (8+6+8+6+8+8+5+5+8+6,
converter.py lines 601-636), minus 5 per note line, minus 8 for the
period line when drawn and 5 otherwise (lines 659-663), minus the 5 mm
gap and the 8 mm `Details` heading (lines 669-674). -/
def itemStartY (d : InvoiceData) : Int :=
  let noteLs := renderNoteLines (pyOr d.note "").data
  let period := format_period_monthyear d.invoice_period.start d.invoice_period.stop
  (267 : Int) - 8 - 6 - 8 - 6 - 8 - 8 - 5 - 5 - 8 - 6
    - 5 * (noteLs.length : Int) - (if period = "" then 5 else 8) - 5 - 8

/-- `create_invoice_pdf` (converter.py lines 423-835), as the list of
physical pages, each page the list of its drawn text lines.  The
vertical cursor (in millimetres from the page bottom) is threaded
through the two loops exactly as in the source; all other cursor
arithmetic only spaces text and is mirrored in the start-cursor values
(`itemStartY` for the item loop; the page-3 fixed part ends at
267-8-6-5-10-6-6 = 226 for the document loop). -/
def create_invoice_pdf (d : InvoiceData) (output_path : String) : List (List String) :=
  let base_fn := pySplitextStem (pyBasename output_path)
  let hdr2 := draw_header_ops d.supplier.name d.invoice_id d.issue_date 2 3
  let hdr3 := draw_header_ops d.supplier.name d.invoice_id d.issue_date 3 3
  let r2 := renderItems hdr2 d.items 1 (itemStartY d) (cur2Init d) [page1Full d]
  let page2Final := r2.2.1 ++ page2TrailerOps d ++ [footer_text]
  let r3 := renderDocs hdr3 base_fn d.additional_documents 1 226 (cur3Init d)
    (r2.1 ++ [page2Final])
  r3.1 ++ [r3.2.1 ++ [footer_text]]

/-- Number of page breaks taken by a loop that lowers the cursor by
`dec` per block starting from `y`, breaking (and resetting to 267) when
the lowered cursor sits below `threshold`. -/
def countBreaks (threshold dec : Int) : Int → Nat → Nat
  | _, 0 => 0
  | y, n + 1 =>
    let y2 := y - dec
    if y2 < threshold then 1 + countBreaks threshold dec 267 n
    else countBreaks threshold dec y2 n

/-- Zero-padded two-digit character rendering of `n < 100`. -/
def pad2c (n : Nat) : List Char :=
  [Nat.digitChar (n / 10), Nat.digitChar (n % 10)]

/-- Zero-padded four-digit character rendering of `n < 10000`. -/
def pad4c (n : Nat) : List Char :=
  [Nat.digitChar (n / 1000), Nat.digitChar (n / 100 % 10),
   Nat.digitChar (n / 10 % 10), Nat.digitChar (n % 10)]

/-- The canonical `YYYY-MM-DD` rendering of a date triple. -/
def isoDate (y m d : Nat) : String :=
  String.mk (pad4c y ++ '-' :: pad2c m ++ '-' :: pad2c d)

/-- Specification view of one `AdditionalDocumentReference`: no entry
when neither an `ID` nor a `DocumentDescription` descendant exists,
otherwise an entry with the missing one of the two as `""`. -/
def docRefSpec (docref : Element) : Option AdditionalDoc :=
  match findLocal docref "ID", findLocal docref "DocumentDescription" with
  | none, none => none
  | oid, odesc =>
    some { id := (match oid with
                  | some e => e.text
                  | none => some "")
           description := (match odesc with
                           | some e => e.text
                           | none => some "") }

/-- Specification view of the file writes of `extract_attachments`: the
matching elements enumerated with 1-based indices assigned before any
skip check; empty text skips, decode failure skips, success writes
`<base>_Anhang<idx>.pdf`. -/
def attachFileFor (b64 : String → Option (List Nat)) (output_dir base_name : String)
    (p : Nat × Element) : Option (String × List Nat) :=
  match p.2.text with
  | none => none
  | some enc =>
    if enc = "" then none
    else (b64 enc).map (fun bs =>
      (pathJoin output_dir (base_name ++ "_Anhang" ++ toString p.1 ++ ".pdf"), bs))

/-- Specification view of the per-element console message of the
attachment loop: a decode-failure diagnostic or a save notice. -/
def attachLogFor (b64 : String → Option (List Nat)) (output_dir base_name : String)
    (p : Nat × Element) : Option String :=
  match p.2.text with
  | none => none
  | some enc =>
    if enc = "" then none
    else
      match b64 enc with
      | none => some (fehlerMsg p.1)
      | some _ => some (savedMsg p.1
          (pathJoin output_dir (base_name ++ "_Anhang" ++ toString p.1 ++ ".pdf")))

/-- All text drawn by a renderer loop result: finished pages then the
still-open page. -/
def allOps (r : List (List String) × List String × Int) : List String :=
  r.1.flatten ++ r.2.1

/-- A document whose `Note` element is present but empty: parsing
`<Invoice><Note/></Invoice>` yields text `None` for the note. -/
def noteOnlyDoc : Element :=
  .mk "Invoice" none [] [.mk "Note" none [] []]

/-- Demo document with two line items carrying different `Item/Name`
values (tags in Clark notation under a namespace). -/
def twoLineDoc : Element :=
  .mk "\x7burn:ubl\x7dInvoice" none [] [
    .mk "\x7burn:ubl\x7dInvoiceLine" none [] [
      .mk "\x7burn:ubl\x7dID" (some "1") [] [],
      .mk "\x7burn:ubl\x7dItem" none [] [
        .mk "\x7burn:ubl\x7dName" (some "Artikel A") [] []]],
    .mk "\x7burn:ubl\x7dInvoiceLine" none [] [
      .mk "\x7burn:ubl\x7dID" (some "2") [] [],
      .mk "\x7burn:ubl\x7dItem" none [] [
        .mk "\x7burn:ubl\x7dName" (some "Artikel B") [] []]]]

/-- The model extracted from `twoLineDoc`. -/
def twoLineData : InvoiceData :=
  (parse_invoice_data twoLineDoc).toOption.getD emptyInvoiceData

/-- Demo document with three `AdditionalDocumentReference` elements: one
carrying only an `ID`, one carrying only a `DocumentDescription`, and
one carrying neither. -/
def docRefDemoRoot : Element :=
  .mk "Invoice" none [] [
    .mk "AdditionalDocumentReference" none [] [.mk "ID" (some "DOC-1") [] []],
    .mk "AdditionalDocumentReference" none [] [
      .mk "DocumentDescription" (some "Anlage") [] []],
    .mk "AdditionalDocumentReference" none [] [.mk "Sonstiges" none [] []]]

/-- The model extracted from `docRefDemoRoot`. -/
def docRefDemoData : InvoiceData :=
  (parse_invoice_data docRefDemoRoot).toOption.getD emptyInvoiceData

lemma digitChar_toNat {k : Nat} (h : k < 10) : (Nat.digitChar k).toNat = 48 + k := by
  interval_cases k <;> decide

lemma digitChar_isDigit {k : Nat} (h : k < 10) : (Nat.digitChar k).isDigit = true := by
  interval_cases k <;> decide

lemma digitChar_ne_dash {k : Nat} (h : k < 10) : ¬ Nat.digitChar k = '-' := by
  interval_cases k <;> decide

lemma toNatDigits_pad2c {n : Nat} (h : n < 100) : toNatDigits (pad2c n) = n := by
  have h1 : n / 10 < 10 := by omega
  have h2 : n % 10 < 10 := by omega
  simp [toNatDigits, pad2c, digitChar_toNat h1, digitChar_toNat h2]
  omega

lemma toNatDigits_pad4c {n : Nat} (h : n < 10000) : toNatDigits (pad4c n) = n := by
  have h1 : n / 1000 < 10 := by omega
  have h2 : n / 100 % 10 < 10 := by omega
  have h3 : n / 10 % 10 < 10 := by omega
  have h4 : n % 10 < 10 := by omega
  simp [toNatDigits, pad4c, digitChar_toNat h1, digitChar_toNat h2,
        digitChar_toNat h3, digitChar_toNat h4]
  omega

lemma pad2c_no_dash {n : Nat} (h : n < 100) : ∀ c ∈ pad2c n, ¬ c = '-' := by
  intro c hc
  simp only [pad2c, List.mem_cons, List.mem_singleton, List.not_mem_nil, or_false] at hc
  rcases hc with h1 | h1 <;> subst h1
  · exact digitChar_ne_dash (by omega)
  · exact digitChar_ne_dash (by omega)

lemma pad4c_no_dash {n : Nat} (h : n < 10000) : ∀ c ∈ pad4c n, ¬ c = '-' := by
  intro c hc
  simp only [pad4c, List.mem_cons, List.mem_singleton, List.not_mem_nil, or_false] at hc
  rcases hc with h1 | h1 | h1 | h1 <;> subst h1
  · exact digitChar_ne_dash (by omega)
  · exact digitChar_ne_dash (by omega)
  · exact digitChar_ne_dash (by omega)
  · exact digitChar_ne_dash (by omega)

lemma pad2c_all_digits {n : Nat} (h : n < 100) : (pad2c n).all Char.isDigit = true := by
  simp [pad2c, digitChar_isDigit (show n / 10 < 10 by omega),
        digitChar_isDigit (show n % 10 < 10 by omega)]

lemma pad4c_all_digits {n : Nat} (h : n < 10000) : (pad4c n).all Char.isDigit = true := by
  simp [pad4c, digitChar_isDigit (show n / 1000 < 10 by omega),
        digitChar_isDigit (show n / 100 % 10 < 10 by omega),
        digitChar_isDigit (show n / 10 % 10 < 10 by omega),
        digitChar_isDigit (show n % 10 < 10 by omega)]

lemma splitOnChar_no_sep {sep : Char} {xs : List Char} (h : ∀ c ∈ xs, ¬ c = sep) :
    splitOnChar sep xs = [xs] := by
  induction xs with
  | nil => rfl
  | cons c cs ih =>
    have hc : ¬ c = sep := h c (by simp)
    have ih2 := ih (fun x hx => h x (by simp [hx]))
    simp [splitOnChar, hc, ih2]

lemma splitOnChar_append {sep : Char} {xs rest : List Char} (h : ∀ c ∈ xs, ¬ c = sep) :
    splitOnChar sep (xs ++ sep :: rest) = xs :: splitOnChar sep rest := by
  induction xs with
  | nil => simp [splitOnChar]
  | cons c cs ih =>
    have hc : ¬ c = sep := h c (by simp)
    have ih2 := ih (fun x hx => h x (by simp [hx]))
    simp [splitOnChar, hc, ih2]

lemma daysInMonth_le_31 (y m : Nat) : daysInMonth y m ≤ 31 := by
  unfold daysInMonth
  split_ifs <;> omega

lemma parseDate_iso {y m d : Nat} (hy1 : 1 ≤ y) (hy2 : y ≤ 9999)
    (hm1 : 1 ≤ m) (hm2 : m ≤ 12) (hd1 : 1 ≤ d) (hd2 : d ≤ daysInMonth y m) :
    parseDate (isoDate y m d) = some (y, m, d) := by
  have hm100 : m < 100 := by omega
  have hd100 : d < 100 := by
    have := daysInMonth_le_31 y m
    omega
  have hy10000 : y < 10000 := by omega
  have hsplit : splitOnChar '-' (isoDate y m d).data = [pad4c y, pad2c m, pad2c d] := by
    show splitOnChar '-' (pad4c y ++ '-' :: (pad2c m ++ '-' :: pad2c d)) = _
    rw [splitOnChar_append (pad4c_no_dash hy10000),
        splitOnChar_append (pad2c_no_dash hm100),
        splitOnChar_no_sep (pad2c_no_dash hd100)]
  have h31 := daysInMonth_le_31 y m
  simp only [parseDate, hsplit]
  rw [if_pos, toNatDigits_pad4c hy10000, toNatDigits_pad2c hm100, toNatDigits_pad2c hd100,
      if_pos]
  · exact ⟨hm1, hm2, hd1, by omega, hy1, hd2⟩
  · refine ⟨rfl, by simp [pad2c], by simp [pad2c], by simp [pad2c], by simp [pad2c],
      pad4c_all_digits hy10000, pad2c_all_digits hm100, pad2c_all_digits hd100⟩

/-- C4: for every valid `YYYY-MM-DD` date string, `format_date` emits
`D.M.YYYY` with unpadded day and month (e.g. `2025-05-01` becomes
`1.5.2025`); for any input the strptime pattern rejects, the output
equals the input; for `None` input the output is the empty string. -/
theorem format_date_spec :
    (∀ y m d : Nat, 1 ≤ y → y ≤ 9999 → 1 ≤ m → m ≤ 12 → 1 ≤ d → d ≤ daysInMonth y m →
      format_date (some (isoDate y m d)) = s!"{d}.{m}.{y}") ∧
    (∀ s : String, parseDate s = none → format_date (some s) = s) ∧
    format_date none = "" := by
  refine ⟨?_, ?_, rfl⟩
  · intro y m d hy1 hy2 hm1 hm2 hd1 hd2
    simp [format_date, parseDate_iso hy1 hy2 hm1 hm2 hd1 hd2]
  · intro s h
    simp [format_date, h]

/-- Witness for C4 at 2025-05-01. -/
theorem format_date_spec_witness :
    format_date (some (isoDate 2025 5 1)) = "1.5.2025" ∧ isoDate 2025 5 1 = "2025-05-01" :=
  ⟨(format_date_spec.1 2025 5 1 (by decide) (by decide) (by decide) (by decide)
      (by decide) (by decide)).trans (by decide),
   by decide⟩

/-- C5: for every valid `YYYY-MM-DD` start date,
`format_period_monthyear` emits zero-padded `MM/YYYY` from the start
date alone (e.g. `2025-05-01` becomes `05/2025`); any start the
strptime pattern rejects (or `None`) yields `""`; the result never
depends on the end argument. -/
theorem format_period_monthyear_spec :
    (∀ y m d : Nat, 1 ≤ y → y ≤ 9999 → 1 ≤ m → m ≤ 12 → 1 ≤ d → d ≤ daysInMonth y m →
      ∀ e : Option String,
        format_period_monthyear (some (isoDate y m d)) e = pad02 m ++ "/" ++ toString y) ∧
    (∀ s : String, parseDate s = none → ∀ e : Option String,
      format_period_monthyear (some s) e = "") ∧
    (∀ e : Option String, format_period_monthyear none e = "") ∧
    (∀ st e1 e2 : Option String,
      format_period_monthyear st e1 = format_period_monthyear st e2) := by
  refine ⟨?_, ?_, fun e => rfl, fun st e1 e2 => rfl⟩
  · intro y m d hy1 hy2 hm1 hm2 hd1 hd2 e
    simp [format_period_monthyear, parseDate_iso hy1 hy2 hm1 hm2 hd1 hd2]
  · intro s h e
    simp [format_period_monthyear, h]

/-- Witness for C5 at 2025-05-01 (with an end date it ignores). -/
theorem format_period_monthyear_spec_witness :
    format_period_monthyear (some (isoDate 2025 5 1)) (some "2025-05-31") = "05/2025" :=
  (format_period_monthyear_spec.1 2025 5 1 (by decide) (by decide) (by decide) (by decide)
    (by decide) (by decide) (some "2025-05-31")).trans (by decide)

/-- C1 (failing case): the extractor is not exception-free.  On a
document whose `Note` element is present but has no text (as parsing
`<Invoice><Note/></Invoice>` produces), line 193 of the source
(`data["note"] = elem.text.strip()`) calls `.strip()` on `None` and
raises `AttributeError`; every other lookup tolerates absent or empty
elements.  The spec (no exception ever, totality) is the evident intent
of the surrounding code, so this is recorded as a code bug. -/
theorem parse_invoice_data_raises_on_empty_note :
    parse_invoice_data noteOnlyDoc =
      Except.error "AttributeError: NoneType object has no attribute strip" := rfl

/-- C8: extraction is total on a minimal document: for any childless
root element (any tag, text, attributes), the result is the
fully-structured all-null model — every scalar field `None`, the period
fields `None`, items and additional documents empty — with no error. -/
theorem parse_invoice_data_minimal :
    ∀ (t : String) (tx : Option String) (a : List (String × String)),
      parse_invoice_data (.mk t tx a []) = Except.ok emptyInvoiceData := by
  intro t tx a
  rfl

/-- C6: per-line-item scoping: the extracted item list is exactly the
`InvoiceLine` elements of the document, in document order, each mapped
through `parseInvoiceLine` — a function of that single line's subtree —
so a field of one line (such as its `Item/Name`) can never appear in
another line's record. -/
theorem parse_items_scoped :
    ∀ (root : Element) (d : InvoiceData), parse_invoice_data root = Except.ok d →
      d.items = (findAllLocal root "InvoiceLine").map parseInvoiceLine := by
  intro root d h
  cases hn : findLocal root "Note" with
  | none =>
    simp only [parse_invoice_data, hn] at h
    injection h with h2
    subst h2
    rfl
  | some e =>
    cases ht : e.text with
    | none =>
      simp only [parse_invoice_data, hn, ht] at h
      exact absurd h (by simp)
    | some t =>
      simp only [parse_invoice_data, hn, ht] at h
      injection h with h2
      subst h2
      rfl

/-- Witness for C6 on `twoLineDoc`: the scoping equation holds there and
the two extracted names come from their own lines. -/
theorem parse_items_scoped_witness :
    twoLineData.items = (findAllLocal twoLineDoc "InvoiceLine").map parseInvoiceLine ∧
    twoLineData.items.map Item.item_name = [some "Artikel A", some "Artikel B"] :=
  ⟨parse_items_scoped twoLineDoc twoLineData rfl, by decide⟩

lemma parseDocRefs_eq_filterMap : ∀ l : List Element, parseDocRefs l = l.filterMap docRefSpec := by
  intro l
  induction l with
  | nil => rfl
  | cons docref rest ih =>
    simp only [parseDocRefs, List.filterMap_cons]
    cases hid : findLocal docref "ID" with
    | none =>
      cases hdesc : findLocal docref "DocumentDescription" with
      | none => simp [docRefSpec, hid, hdesc, ih]
      | some e => simp [docRefSpec, hid, hdesc, ih]
    | some e =>
      cases hdesc : findLocal docref "DocumentDescription" with
      | none => simp [docRefSpec, hid, hdesc, ih]
      | some e2 => simp [docRefSpec, hid, hdesc, ih]

lemma attachLoop_spec (b64 : String → Option (List Nat)) (output_dir base_name : String) :
    ∀ (elems : List Element) (idx : Nat),
      attachLoop b64 output_dir base_name elems idx =
        { files := (elems.enumFrom idx).filterMap (attachFileFor b64 output_dir base_name),
          logs := (elems.enumFrom idx).filterMap (attachLogFor b64 output_dir base_name),
          saved := ((elems.enumFrom idx).filterMap
            (attachFileFor b64 output_dir base_name)).map Prod.fst } := by
  intro elems
  induction elems with
  | nil => intro idx; rfl
  | cons e rest ih =>
    intro idx
    simp only [attachLoop, List.enumFrom_cons, List.filterMap_cons]
    cases htext : e.text with
    | none => simp [attachFileFor, attachLogFor, htext, ih]
    | some enc =>
      by_cases henc : enc = ""
      · simp [attachFileFor, attachLogFor, htext, henc, ih]
      · cases hb : b64 enc with
        | none => simp [attachFileFor, attachLogFor, htext, henc, hb, ih]
        | some bs => simp [attachFileFor, attachLogFor, htext, henc, hb, ih]

/-- C2: `extract_attachments` enumerates the elements whose tag ends in
`EmbeddedDocumentBinaryObject` in document order with 1-based indices
assigned before any skip check; empty text and decode failures write
nothing (a decode failure contributes a diagnostic and the loop
continues), every other element yields `<base>_Anhang<idx>.pdf` under
its enumeration index (so skipped elements leave gaps); the returned
list is exactly the paths written, in document order.  The console
output is the per-element messages plus a final notice when nothing was
saved. -/
theorem extract_attachments_spec :
    ∀ (b64 : String → Option (List Nat)) (xml_root : Element) (output_dir base_name : String),
      (extract_attachments b64 xml_root output_dir base_name).files =
        (((preorder xml_root).filter
            (fun e => e.tag.endsWith "EmbeddedDocumentBinaryObject")).enumFrom 1).filterMap
          (attachFileFor b64 output_dir base_name) ∧
      (extract_attachments b64 xml_root output_dir base_name).saved =
        ((extract_attachments b64 xml_root output_dir base_name).files).map Prod.fst ∧
      (extract_attachments b64 xml_root output_dir base_name).logs =
        (((preorder xml_root).filter
            (fun e => e.tag.endsWith "EmbeddedDocumentBinaryObject")).enumFrom 1).filterMap
          (attachLogFor b64 output_dir base_name) ++
        (if (extract_attachments b64 xml_root output_dir base_name).saved = []
         then ["Kein PDF-Anhang gefunden."] else []) := by
  intro b64 xml_root output_dir base_name
  simp only [extract_attachments, attachLoop_spec]
  by_cases h : (((preorder xml_root).filter
      (fun e => e.tag.endsWith "EmbeddedDocumentBinaryObject")).enumFrom 1).filterMap
        (attachFileFor b64 output_dir base_name) = []
  · simp [h]
  · have h2 : ((((preorder xml_root).filter
        (fun e => e.tag.endsWith "EmbeddedDocumentBinaryObject")).enumFrom 1).filterMap
          (attachFileFor b64 output_dir base_name)).map Prod.fst ≠ [] := by
      simpa using h
    simp [h, h2]

lemma renderItems_length (hdr : List String) :
    ∀ (items : List Item) (idx : Nat) (y : Int) (cur : List String)
      (pages : List (List String)),
      (renderItems hdr items idx y cur pages).1.length =
        pages.length + countBreaks 60 74 y items.length := by
  intro items
  induction items with
  | nil => intro idx y cur pages; simp [renderItems, countBreaks]
  | cons itm rest ih =>
    intro idx y cur pages
    simp only [renderItems, List.length_cons, countBreaks]
    by_cases h : y - 74 < 60
    · rw [if_pos h, if_pos h, ih]
      simp
      omega
    · rw [if_neg h, if_neg h, ih]

lemma renderDocs_length (hdr : List String) (base_fn : String) :
    ∀ (docs : List AdditionalDoc) (idx : Nat) (y : Int) (cur : List String)
      (pages : List (List String)),
      (renderDocs hdr base_fn docs idx y cur pages).1.length =
        pages.length + countBreaks 50 30 y docs.length := by
  intro docs
  induction docs with
  | nil => intro idx y cur pages; simp [renderDocs, countBreaks]
  | cons doc rest ih =>
    intro idx y cur pages
    simp only [renderDocs, List.length_cons, countBreaks]
    by_cases h : y - 30 < 50
    · rw [if_pos h, if_pos h, ih]
      simp
      omega
    · rw [if_neg h, if_neg h, ih]

/-- C3: the renderer always emits exactly `3 + itemBreaks + docBreaks`
physical pages — and hence at least 3 — where `itemBreaks` counts the
line items after whose block (74 mm) the cursor sits below 60 mm and
`docBreaks` counts the additional-document entries after whose block
(30 mm) the cursor sits below 50 mm (the cursor restarting at 267 mm
after each break). -/
theorem create_invoice_pdf_page_count (d : InvoiceData) (output_path : String) :
    (create_invoice_pdf d output_path).length =
      3 + countBreaks 60 74 (itemStartY d) d.items.length
        + countBreaks 50 30 226 d.additional_documents.length ∧
    3 ≤ (create_invoice_pdf d output_path).length := by
  have hmain : (create_invoice_pdf d output_path).length =
      3 + countBreaks 60 74 (itemStartY d) d.items.length
        + countBreaks 50 30 226 d.additional_documents.length := by
    simp only [create_invoice_pdf]
    rw [List.length_append, renderDocs_length, List.length_append, renderItems_length]
    simp only [itemStartY, List.length_singleton]
    omega
  exact ⟨hmain, by omega⟩

lemma label_append {l1 l2 : List String} {a : String} (h : l1[2]? = some a) :
    (l1 ++ l2)[2]? = some a := by
  have hlt : 2 < l1.length := by
    rcases List.getElem?_eq_some.mp h with ⟨hl, _⟩
    exact hl
  rw [List.getElem?_append, if_pos hlt]
  exact h

lemma renderItems_labels (hdr : List String) (lbl : String) (hh : hdr[2]? = some lbl) :
    ∀ (items : List Item) (idx : Nat) (y : Int) (cur : List String)
      (pages : List (List String)), cur[2]? = some lbl →
      ((renderItems hdr items idx y cur pages).1.map (fun p => p[2]?) =
        pages.map (fun p => p[2]?) ++
          List.replicate (countBreaks 60 74 y items.length) (some lbl)) ∧
      ((renderItems hdr items idx y cur pages).2.1)[2]? = some lbl := by
  intro items
  induction items with
  | nil => intro idx y cur pages hcur; simp [renderItems, countBreaks, hcur]
  | cons itm rest ih =>
    intro idx y cur pages hcur
    have hcur2 : (cur ++ itemOps itm idx)[2]? = some lbl := label_append hcur
    have hpage : (cur ++ itemOps itm idx ++ [footer_text])[2]? = some lbl :=
      label_append hcur2
    simp only [renderItems, List.length_cons, countBreaks]
    by_cases h : y - 74 < 60
    · rw [if_pos h, if_pos h]
      obtain ⟨ihmap, ihcur⟩ := ih (idx + 1) 267 hdr
        (pages ++ [cur ++ itemOps itm idx ++ [footer_text]]) hh
      refine ⟨?_, ihcur⟩
      rw [ihmap, List.map_append]
      simp [List.replicate_add, List.append_assoc]
      exact label_append hcur
    · rw [if_neg h, if_neg h]
      exact ih (idx + 1) (y - 74) (cur ++ itemOps itm idx) pages hcur2

lemma renderDocs_labels (hdr : List String) (base_fn : String) (lbl : String)
    (hh : hdr[2]? = some lbl) :
    ∀ (docs : List AdditionalDoc) (idx : Nat) (y : Int) (cur : List String)
      (pages : List (List String)), cur[2]? = some lbl →
      ((renderDocs hdr base_fn docs idx y cur pages).1.map (fun p => p[2]?) =
        pages.map (fun p => p[2]?) ++
          List.replicate (countBreaks 50 30 y docs.length) (some lbl)) ∧
      ((renderDocs hdr base_fn docs idx y cur pages).2.1)[2]? = some lbl := by
  intro docs
  induction docs with
  | nil => intro idx y cur pages hcur; simp [renderDocs, countBreaks, hcur]
  | cons doc rest ih =>
    intro idx y cur pages hcur
    have hcur2 : (cur ++ docOpsFor base_fn doc idx)[2]? = some lbl := label_append hcur
    have hpage : (cur ++ docOpsFor base_fn doc idx ++ [footer_text])[2]? = some lbl :=
      label_append hcur2
    simp only [renderDocs, List.length_cons, countBreaks]
    by_cases h : y - 30 < 50
    · rw [if_pos h, if_pos h]
      obtain ⟨ihmap, ihcur⟩ := ih (idx + 1) 267 hdr
        (pages ++ [cur ++ docOpsFor base_fn doc idx ++ [footer_text]]) hh
      refine ⟨?_, ihcur⟩
      rw [ihmap, List.map_append]
      simp [List.replicate_add, List.append_assoc]
      exact label_append hcur
    · rw [if_neg h, if_neg h]
      exact ih (idx + 1) (y - 30) (cur ++ docOpsFor base_fn doc idx) pages hcur2

lemma draw_header_ops_label (sn iid idate : Option String) (n t : Nat) :
    (draw_header_ops sn iid idate n t)[2]? = some s!"Seite {n} / {t}" := rfl

/-- C7: every physical page carries a header whose `Seite L / 3` line
(the third drawn line of the page) shows the logical page index L over
the constant 3: one page labelled `Seite 1 / 3`, then `1 + itemBreaks`
pages labelled `Seite 2 / 3`, then `1 + docBreaks` pages labelled
`Seite 3 / 3` — overflow pages repeat the logical index of the page
they continue, however many physical pages are emitted. -/
theorem create_invoice_pdf_header_labels (d : InvoiceData) (output_path : String) :
    (create_invoice_pdf d output_path).map (fun p => p[2]?) =
      some "Seite 1 / 3" ::
        (List.replicate (1 + countBreaks 60 74 (itemStartY d) d.items.length)
            (some "Seite 2 / 3") ++
         List.replicate (1 + countBreaks 50 30 226 d.additional_documents.length)
            (some "Seite 3 / 3")) := by
  have h1 : (draw_header_ops d.supplier.name d.invoice_id d.issue_date 1 3)[2]?
      = some "Seite 1 / 3" := rfl
  have h2 : (draw_header_ops d.supplier.name d.invoice_id d.issue_date 2 3)[2]?
      = some "Seite 2 / 3" := rfl
  have h3 : (draw_header_ops d.supplier.name d.invoice_id d.issue_date 3 3)[2]?
      = some "Seite 3 / 3" := rfl
  have hcur2 : (cur2Init d)[2]? = some "Seite 2 / 3" := by
    simp only [cur2Init]
    exact label_append (label_append (label_append (label_append h2)))
  have hcur3 : (cur3Init d)[2]? = some "Seite 3 / 3" := by
    simp only [cur3Init]
    exact label_append h3
  have hp1 : (page1Full d)[2]? = some "Seite 1 / 3" := by
    simp only [page1Full]
    exact label_append (label_append h1)
  obtain ⟨hi_map, hi_cur⟩ :=
    renderItems_labels (draw_header_ops d.supplier.name d.invoice_id d.issue_date 2 3)
      "Seite 2 / 3" h2 d.items 1 (itemStartY d) (cur2Init d) [page1Full d] hcur2
  have hp2fin : ((renderItems (draw_header_ops d.supplier.name d.invoice_id d.issue_date 2 3)
      d.items 1 (itemStartY d) (cur2Init d) [page1Full d]).2.1 ++
        page2TrailerOps d ++ [footer_text])[2]? = some "Seite 2 / 3" :=
    label_append (label_append hi_cur)
  rw [List.append_assoc] at hp2fin
  obtain ⟨hd_map, hd_cur⟩ :=
    renderDocs_labels (draw_header_ops d.supplier.name d.invoice_id d.issue_date 3 3)
      (pySplitextStem (pyBasename output_path)) "Seite 3 / 3" h3
      d.additional_documents 1 226 (cur3Init d)
      ((renderItems (draw_header_ops d.supplier.name d.invoice_id d.issue_date 2 3)
          d.items 1 (itemStartY d) (cur2Init d) [page1Full d]).1 ++
        [(renderItems (draw_header_ops d.supplier.name d.invoice_id d.issue_date 2 3)
          d.items 1 (itemStartY d) (cur2Init d) [page1Full d]).2.1 ++
            page2TrailerOps d ++ [footer_text]]) hcur3
  simp only [create_invoice_pdf]
  have hlast : ((renderDocs (draw_header_ops d.supplier.name d.invoice_id d.issue_date 3 3)
      (pySplitextStem (pyBasename output_path)) d.additional_documents 1 226 (cur3Init d)
      ((renderItems (draw_header_ops d.supplier.name d.invoice_id d.issue_date 2 3)
          d.items 1 (itemStartY d) (cur2Init d) [page1Full d]).1 ++
        [(renderItems (draw_header_ops d.supplier.name d.invoice_id d.issue_date 2 3)
          d.items 1 (itemStartY d) (cur2Init d) [page1Full d]).2.1 ++
            page2TrailerOps d ++ [footer_text]])).2.1 ++ [footer_text])[2]?
      = some "Seite 3 / 3" := label_append hd_cur
  simp only [List.append_assoc] at hlast
  rw [List.map_append, hd_map, List.map_append, hi_map]
  simp only [List.map_cons, List.map_nil, List.append_assoc, List.singleton_append]
  rw [hp1]
  rw [Nat.add_comm 1 (countBreaks 60 74 (itemStartY d) d.items.length),
      Nat.add_comm 1 (countBreaks 50 30 226 d.additional_documents.length),
      List.replicate_succ', List.replicate_succ']
  simp only [List.append_assoc, List.singleton_append, List.cons_append, List.nil_append]
  rw [hp2fin, hlast]

lemma chunk80Go_flatten : ∀ (fuel : Nat) (cs : List Char),
    (chunk80Go fuel cs).flatten = cs := by
  intro fuel
  induction fuel with
  | zero => intro cs; simp [chunk80Go]
  | succ f ih =>
    intro cs
    simp only [chunk80Go]
    by_cases h : cs.length ≤ 80
    · rw [if_pos h]; simp
    · rw [if_neg h]
      simp [ih]

lemma chunk80Go_short {fuel : Nat} {cs : List Char} (h : cs.length ≤ 80) :
    chunk80Go fuel cs = [cs] := by
  cases fuel with
  | zero => rfl
  | succ f => simp [chunk80Go, h]

lemma chunk80Go_le : ∀ (fuel : Nat) (cs : List Char), cs.length ≤ 80 * fuel + 80 →
    ∀ p ∈ chunk80Go fuel cs, p.length ≤ 80 := by
  intro fuel
  induction fuel with
  | zero =>
    intro cs h p hp
    simp [chunk80Go] at hp
    subst hp
    simpa using h
  | succ f ih =>
    intro cs h p hp
    simp only [chunk80Go] at hp
    by_cases hle : cs.length ≤ 80
    · rw [if_pos hle] at hp
      simp at hp
      subst hp
      exact hle
    · rw [if_neg hle] at hp
      rcases List.mem_cons.mp hp with h1 | h1
      · subst h1
        simp
      · exact ih (cs.drop 80) (by simp; omega) p h1

lemma chunk80Go_ne_nil (fuel : Nat) (cs : List Char) : chunk80Go fuel cs ≠ [] := by
  cases fuel with
  | zero => simp [chunk80Go]
  | succ f =>
    simp only [chunk80Go]
    by_cases h : cs.length ≤ 80
    · rw [if_pos h]; simp
    · rw [if_neg h]; simp

lemma chunk80Go_dropLast : ∀ (fuel : Nat) (cs : List Char),
    ∀ p ∈ (chunk80Go fuel cs).dropLast, p.length = 80 := by
  intro fuel
  induction fuel with
  | zero => intro cs p hp; simp [chunk80Go] at hp
  | succ f ih =>
    intro cs p hp
    simp only [chunk80Go] at hp
    by_cases hle : cs.length ≤ 80
    · rw [if_pos hle] at hp
      simp at hp
    · rw [if_neg hle] at hp
      cases hr : chunk80Go f (cs.drop 80) with
      | nil => exact absurd hr (chunk80Go_ne_nil f (cs.drop 80))
      | cons q qs =>
        rw [hr, List.dropLast_cons₂] at hp
        rcases List.mem_cons.mp hp with h1 | h1
        · subst h1
          simp
          omega
        · exact ih (cs.drop 80) p (by rw [hr]; exact h1)

lemma flatMap_strip_filter (l : List (List Char)) :
    (l.flatMap (fun ln => if pyStrip ln = [] then [] else chunk80 (pyStrip ln))) =
      ((l.map pyStrip).filter (fun t => ¬ t = [])).flatMap chunk80 := by
  induction l with
  | nil => rfl
  | cons ln rest ih =>
    simp only [List.flatMap_cons, List.map_cons, List.filter_cons]
    by_cases h : pyStrip ln = []
    · simp [h, ih]
    · simp [h, ih]

/-- C9: the note renderer splits the note on the literal pipe into
paragraphs in order, drops paragraphs that are blank after stripping,
and emits each remaining paragraph as successive 80-character slices
followed by the remainder: the emitted chunks of a paragraph
concatenate back to it, every emitted chunk except the last of its
paragraph has exactly 80 characters, and every emitted note line has at
most 80 characters. -/
theorem note_lines_spec :
    ∀ note : List Char,
      renderNoteLines note =
        (((splitOnChar '|' note).map pyStrip).filter (fun t => ¬ t = [])).flatMap chunk80 ∧
      (∀ l ∈ renderNoteLines note, l.length ≤ 80) ∧
      (∀ t : List Char, (chunk80 t).flatten = t) ∧
      (∀ t : List Char, ∀ p ∈ (chunk80 t).dropLast, p.length = 80) := by
  intro note
  refine ⟨?_, ?_, fun t => chunk80Go_flatten t.length t,
    fun t => chunk80Go_dropLast t.length t⟩
  · show (splitOnChar '|' note).flatMap _ = _
    rw [← flatMap_strip_filter]
  · intro l hl
    simp only [renderNoteLines, List.mem_flatMap] at hl
    rcases hl with ⟨ln, _, hmem⟩
    by_cases h : pyStrip ln = []
    · rw [if_pos h] at hmem
      simp at hmem
    · rw [if_neg h] at hmem
      exact chunk80Go_le (pyStrip ln).length (pyStrip ln) (by omega) l hmem

/-- Witness for C9: a concrete membership discharged through the
theorem; the note has a blank paragraph that is skipped. -/
theorem note_lines_spec_witness :
    "ab".data ∈ renderNoteLines " ab |  | c".data ∧ ("ab".data).length ≤ 80 ∧
      renderNoteLines " ab |  | c".data = ["ab".data, "c".data] :=
  ⟨by decide, (note_lines_spec " ab |  | c".data).2.1 "ab".data (by decide), by decide⟩

lemma renderDocs_allOps (hdr : List String) (base_fn : String) :
    ∀ (docs : List AdditionalDoc) (idx : Nat) (y : Int) (cur : List String)
      (pages : List (List String)),
      ∃ suffix, allOps (renderDocs hdr base_fn docs idx y cur pages) =
        pages.flatten ++ cur ++ suffix := by
  intro docs
  induction docs with
  | nil =>
    intro idx y cur pages
    exact ⟨[], by simp [renderDocs, allOps]⟩
  | cons doc rest ih =>
    intro idx y cur pages
    simp only [renderDocs]
    by_cases h : y - 30 < 50
    · rw [if_pos h]
      obtain ⟨s, hs⟩ := ih (idx + 1) 267 hdr
        (pages ++ [cur ++ docOpsFor base_fn doc idx ++ [footer_text]])
      refine ⟨docOpsFor base_fn doc idx ++ [footer_text] ++ hdr ++ s, ?_⟩
      rw [hs]
      simp [List.flatten_append, List.append_assoc]
    · rw [if_neg h]
      obtain ⟨s, hs⟩ := ih (idx + 1) (y - 30) (cur ++ docOpsFor base_fn doc idx) pages
      refine ⟨docOpsFor base_fn doc idx ++ s, ?_⟩
      rw [hs]
      simp [List.append_assoc]

lemma renderDocs_infix (hdr : List String) (base_fn : String) :
    ∀ (docs : List AdditionalDoc) (idx : Nat) (y : Int) (cur : List String)
      (pages : List (List String)) (j : Nat) (hj : j < docs.length),
      docOpsFor base_fn (docs.get ⟨j, hj⟩) (idx + j) <:+:
        allOps (renderDocs hdr base_fn docs idx y cur pages) := by
  intro docs
  induction docs with
  | nil => intro idx y cur pages j hj; exact absurd hj (by simp)
  | cons doc rest ih =>
    intro idx y cur pages j hj
    cases j with
    | zero =>
      show docOpsFor base_fn doc (idx + 0) <:+: _
      rw [Nat.add_zero]
      simp only [renderDocs]
      by_cases h : y - 30 < 50
      · rw [if_pos h]
        obtain ⟨s, hs⟩ := renderDocs_allOps hdr base_fn rest (idx + 1) 267 hdr
          (pages ++ [cur ++ docOpsFor base_fn doc idx ++ [footer_text]])
        rw [hs]
        refine ⟨pages.flatten ++ cur, [footer_text] ++ hdr ++ s, ?_⟩
        simp [List.flatten_append, List.append_assoc]
      · rw [if_neg h]
        obtain ⟨s, hs⟩ := renderDocs_allOps hdr base_fn rest (idx + 1) (y - 30)
          (cur ++ docOpsFor base_fn doc idx) pages
        rw [hs]
        refine ⟨pages.flatten ++ cur, s, ?_⟩
        simp [List.append_assoc]
    | succ jj =>
      have hjj : jj < rest.length := by simpa using hj
      have e2 : idx + (jj + 1) = (idx + 1) + jj := by omega
      show docOpsFor base_fn (rest.get ⟨jj, hjj⟩) (idx + (jj + 1)) <:+: _
      rw [e2]
      simp only [renderDocs]
      by_cases h : y - 30 < 50
      · rw [if_pos h]
        exact ih (idx + 1) 267 hdr
          (pages ++ [cur ++ docOpsFor base_fn doc idx ++ [footer_text]]) jj hjj
      · rw [if_neg h]
        exact ih (idx + 1) (y - 30) (cur ++ docOpsFor base_fn doc idx) pages jj hjj

/-- C10: an `AdditionalDocumentReference` with neither an `ID` nor a
`DocumentDescription` descendant contributes no entry; with at least
one, an entry is appended in document order with the missing field as
`""`; and the page-3 blocks number exactly these entries by their
1-based position in the resulting sequence (the block of entry `j`
appears contiguously in the rendered text with filename index `j+1`). -/
theorem additional_documents_spec :
    ∀ (root : Element) (d : InvoiceData) (output_path : String),
      parse_invoice_data root = Except.ok d →
      d.additional_documents =
        (findAllLocal root "AdditionalDocumentReference").filterMap docRefSpec ∧
      ∀ (j : Nat) (hj : j < d.additional_documents.length),
        docOpsFor (pySplitextStem (pyBasename output_path))
            (d.additional_documents.get ⟨j, hj⟩) (j + 1) <:+:
          (create_invoice_pdf d output_path).flatten := by
  intro root d output_path h
  constructor
  · have hd : d.additional_documents =
        parseDocRefs (findAllLocal root "AdditionalDocumentReference") := by
      cases hn : findLocal root "Note" with
      | none =>
        simp only [parse_invoice_data, hn] at h
        injection h with h2
        subst h2
        rfl
      | some e =>
        cases ht : e.text with
        | none =>
          simp only [parse_invoice_data, hn, ht] at h
          exact absurd h (by simp)
        | some t =>
          simp only [parse_invoice_data, hn, ht] at h
          injection h with h2
          subst h2
          rfl
    rw [hd, parseDocRefs_eq_filterMap]
  · intro j hj
    have hinf := renderDocs_infix
      (draw_header_ops d.supplier.name d.invoice_id d.issue_date 3 3)
      (pySplitextStem (pyBasename output_path)) d.additional_documents 1 226
      (cur3Init d)
      ((renderItems (draw_header_ops d.supplier.name d.invoice_id d.issue_date 2 3)
          d.items 1 (itemStartY d) (cur2Init d) [page1Full d]).1 ++
        [(renderItems (draw_header_ops d.supplier.name d.invoice_id d.issue_date 2 3)
          d.items 1 (itemStartY d) (cur2Init d) [page1Full d]).2.1 ++
            page2TrailerOps d ++ [footer_text]]) j hj
    have e2 : 1 + j = j + 1 := by omega
    rw [e2] at hinf
    have hflat : (create_invoice_pdf d output_path).flatten =
        allOps (renderDocs
          (draw_header_ops d.supplier.name d.invoice_id d.issue_date 3 3)
          (pySplitextStem (pyBasename output_path)) d.additional_documents 1 226
          (cur3Init d)
          ((renderItems (draw_header_ops d.supplier.name d.invoice_id d.issue_date 2 3)
              d.items 1 (itemStartY d) (cur2Init d) [page1Full d]).1 ++
            [(renderItems (draw_header_ops d.supplier.name d.invoice_id d.issue_date 2 3)
              d.items 1 (itemStartY d) (cur2Init d) [page1Full d]).2.1 ++
                page2TrailerOps d ++ [footer_text]])) ++ [footer_text] := by
      simp [create_invoice_pdf, allOps, List.flatten_append, List.append_assoc]
    rw [hflat]
    exact hinf.trans ⟨[], [footer_text], by simp⟩

/-- Witness for C10 on `docRefDemoRoot`: the reference without `ID` and
`DocumentDescription` contributes nothing, the other two become entries
with the missing field empty, and entry 0 is rendered with filename
index 1. -/
theorem additional_documents_spec_witness :
    docRefDemoData.additional_documents =
      (findAllLocal docRefDemoRoot "AdditionalDocumentReference").filterMap docRefSpec ∧
    docRefDemoData.additional_documents =
      [{ id := some "DOC-1", description := some "" },
       { id := some "", description := some "Anlage" }] ∧
    docOpsFor (pySplitextStem (pyBasename "output/rechnung.pdf"))
        (docRefDemoData.additional_documents.get ⟨0, by decide⟩) 1 <:+:
      (create_invoice_pdf docRefDemoData "output/rechnung.pdf").flatten :=
  ⟨(additional_documents_spec docRefDemoRoot docRefDemoData "output/rechnung.pdf" rfl).1,
   by decide,
   (additional_documents_spec docRefDemoRoot docRefDemoData "output/rechnung.pdf" rfl).2
     0 (by decide)⟩
